import Mathlib

/-!
Verification development for the namespace-store reconciler of the
noobaa-operator repository.  The Go sources are shallowly embedded:
pure helpers become Lean functions, the stateful reconcile flow becomes
explicit state passing over a `Status` record, outbound API calls are
collected into a trace list, and the responses of external collaborators
(kubernetes, the noobaa RPC API) are supplied through environment records.
-/

namespace Noobaa

/-- Go `error` values that flow through the reconciler: `util.PersistentError`
(reason + message), `nb.RPCError` (rpc code + message), and plain errors made
with `fmt.Errorf` (message only). -/
inductive GoError
  | persistentE (reason message : String)
  | rpcE (rpcCode message : String)
  | basicE (message : String)
  deriving DecidableEq, Repr

/-- `(*PersistentError).Error`, `(*RPCError).Error` and friends: the message
rendered by the Go `error` interface. -/
def GoError.message : GoError → String
  | .persistentE _ m => m
  | .rpcE _ m => m
  | .basicE m => m

/-- `util.IsPersistentError`: a type assertion against `*util.PersistentError`. -/
def IsPersistentError : GoError → Bool
  | .persistentE _ _ => true
  | _ => false

/-- `util.NewPersistentError`. -/
def NewPersistentError (reason message : String) : GoError :=
  .persistentE reason message

/-- One iteration of the loop body of `util.CombineErrors`. -/
def combineStep (combined err : Option GoError) : Option GoError :=
  match err with
  | none => combined
  | some e =>
    match combined with
    | none => some e
    | some c =>
      if IsPersistentError e && !IsPersistentError c then some e else combined

/-- `util.CombineErrors`: folds a variadic list of possibly-nil errors,
keeping the first non-nil one unless a later persistent error can replace a
non-persistent accumulator. -/
def CombineErrors (errs : List (Option GoError)) : Option GoError :=
  errs.foldl combineStep none

/-- `util.IsPersistentError` lifted to a possibly-nil error. -/
def isPersistentOpt : Option GoError → Bool
  | some e => IsPersistentError e
  | none => false

/-- Whether the (possibly-nil) error list holds a persistent error. -/
def hasPersistent (errs : List (Option GoError)) : Bool :=
  errs.any isPersistentOpt

/-- The first non-nil entry of the error list. -/
def firstNonNil (errs : List (Option GoError)) : Option GoError :=
  match errs with
  | [] => none
  | none :: rest => firstNonNil rest
  | some e :: _ => some e

/-- The first persistent error of the list, if any. -/
def firstPersistent (errs : List (Option GoError)) : Option GoError :=
  match errs with
  | [] => none
  | none :: rest => firstPersistent rest
  | some e :: rest => if IsPersistentError e then some e else firstPersistent rest

/-- Characterisation of the fold of `CombineErrors` from an arbitrary
accumulator: a persistent accumulator is final; otherwise the first
persistent error of the remaining list wins, and with no persistent error
anywhere the first non-nil value (accumulator first) is kept. -/
theorem combine_foldl_spec (errs : List (Option GoError)) :
    ∀ acc : Option GoError,
      errs.foldl combineStep acc =
      match acc with
      | some c =>
          if IsPersistentError c then some c
          else match firstPersistent errs with
            | some p => some p
            | none => some c
      | none =>
          match firstPersistent errs with
          | some p => some p
          | none => firstNonNil errs := by
  induction errs with
  | nil =>
    intro acc
    cases acc with
    | none => simp [firstPersistent, firstNonNil]
    | some c =>
      by_cases hc : IsPersistentError c = true
      · simp [firstPersistent, hc]
      · simp [firstPersistent, hc]
  | cons head rest ih =>
    intro acc
    cases head with
    | none =>
      simp only [List.foldl_cons]
      have hstep : combineStep acc none = acc := by cases acc <;> rfl
      rw [hstep, ih acc]
      cases acc with
      | none => simp [firstPersistent, firstNonNil]
      | some c => simp [firstPersistent, firstNonNil]
    | some e =>
      simp only [List.foldl_cons]
      cases acc with
      | none =>
        have hstep : combineStep none (some e) = some e := rfl
        rw [hstep, ih (some e)]
        by_cases he : IsPersistentError e = true
        · simp [firstPersistent, firstNonNil, he]
        · simp only [Bool.not_eq_true] at he
          simp [firstPersistent, firstNonNil, he]
      | some c =>
        by_cases hc : IsPersistentError c = true
        · have hstep : combineStep (some c) (some e) = some c := by
            simp [combineStep, hc]
          rw [hstep, ih (some c)]
          by_cases he : IsPersistentError e = true
          · simp [firstPersistent, he, hc]
          · simp only [Bool.not_eq_true] at he
            simp [firstPersistent, he, hc]
        · simp only [Bool.not_eq_true] at hc
          by_cases he : IsPersistentError e = true
          · have hstep : combineStep (some c) (some e) = some e := by
              simp [combineStep, he, hc]
            rw [hstep, ih (some e)]
            simp [firstPersistent, he, hc]
          · simp only [Bool.not_eq_true] at he
            have hstep : combineStep (some c) (some e) = some c := by
              simp [combineStep, he]
            rw [hstep, ih (some c)]
            simp [firstPersistent, he, hc]

/-- `firstPersistent` finds something exactly when `hasPersistent` says so. -/
theorem firstPersistent_isSome_of_hasPersistent (errs : List (Option GoError))
    (h : hasPersistent errs = true) : (firstPersistent errs).isSome := by
  induction errs with
  | nil => simp [hasPersistent] at h
  | cons head rest ih =>
    unfold hasPersistent at h
    rw [List.any_cons] at h
    cases head with
    | none =>
      have hr : rest.any isPersistentOpt = true := by
        simpa [isPersistentOpt] using h
      simpa [firstPersistent] using ih hr
    | some e =>
      by_cases he : IsPersistentError e = true
      · simp [firstPersistent, he]
      · simp only [Bool.not_eq_true] at he
        have hr : rest.any isPersistentOpt = true := by
          simpa [isPersistentOpt, he] using h
        simpa [firstPersistent, he] using ih hr

/-- With no persistent error, `firstPersistent` finds nothing. -/
theorem firstPersistent_eq_none_of_not_hasPersistent (errs : List (Option GoError))
    (h : hasPersistent errs = false) : firstPersistent errs = none := by
  induction errs with
  | nil => rfl
  | cons head rest ih =>
    unfold hasPersistent at h
    rw [List.any_cons] at h
    cases head with
    | none =>
      have hr : rest.any isPersistentOpt = false := by
        simpa [isPersistentOpt] using h
      simpa [firstPersistent] using ih hr
    | some e =>
      rw [Bool.or_eq_false_iff] at h
      have he : IsPersistentError e = false := by
        simpa [isPersistentOpt] using h.1
      simp [firstPersistent, he, ih h.2]

/-- With at least one persistent error in the list, `CombineErrors` returns
the first persistent error. -/
theorem combineErrors_eq_firstPersistent (errs : List (Option GoError))
    (h : hasPersistent errs = true) :
    CombineErrors errs = firstPersistent errs := by
  unfold CombineErrors
  rw [combine_foldl_spec errs none]
  have := firstPersistent_isSome_of_hasPersistent errs h
  cases hfp : firstPersistent errs with
  | none => rw [hfp] at this; simp at this
  | some p => simp

/-- With no persistent error in the list, `CombineErrors` returns the first
non-nil error. -/
theorem combineErrors_eq_firstNonNil (errs : List (Option GoError))
    (h : hasPersistent errs = false) :
    CombineErrors errs = firstNonNil errs := by
  unfold CombineErrors
  rw [combine_foldl_spec errs none]
  rw [firstPersistent_eq_none_of_not_hasPersistent errs h]

/-- Whatever `firstPersistent` returns is a persistent error. -/
theorem firstPersistent_isPersistent (errs : List (Option GoError)) :
    ∀ p, firstPersistent errs = some p → IsPersistentError p = true := by
  induction errs with
  | nil => intro p h; simp [firstPersistent] at h
  | cons head rest ih =>
    intro p h
    cases head with
    | none => exact ih p (by simpa [firstPersistent] using h)
    | some e =>
      by_cases he : IsPersistentError e = true
      · simp [firstPersistent, he] at h
        exact h ▸ he
      · simp only [Bool.not_eq_true] at he
        exact ih p (by simpa [firstPersistent, he] using h)

/- ===================== data model of the reconciler ===================== -/

/-- `nbv1.NamespaceStorePhase`: the phase strings used on the status, with
`emptyPhase` standing for the empty string of a fresh record. -/
inductive NamespaceStorePhase
  | emptyPhase | verifying | connecting | creating | ready | rejected | deleting
  deriving DecidableEq, Repr

/-- Rendering of a phase value as the Go string constant (used by
`fmt.Sprintf("NamespaceStorePhase%s", ...)`). -/
def phaseStr : NamespaceStorePhase → String
  | .emptyPhase => ""
  | .verifying => "Verifying"
  | .connecting => "Connecting"
  | .creating => "Creating"
  | .ready => "Ready"
  | .rejected => "Rejected"
  | .deleting => "Deleting"

/-- `corev1.ConditionStatus`: True / False / Unknown. -/
inductive CondStatus
  | condTrue | condFalse | condUnknown
  deriving DecidableEq, Repr

/-- One status condition (timestamps are not modelled). -/
structure Condition where
  status : CondStatus
  reason : String
  message : String
  deriving DecidableEq, Repr

/-- The four conditions maintained by `util.Set*Condition`
(Available, Progressing, Degraded, Upgradeable), keyed by type. -/
structure Conditions where
  available : Condition
  progressing : Condition
  degraded : Condition
  upgradeable : Condition
  deriving DecidableEq, Repr

/-- `util.SetAvailableCondition`. -/
def SetAvailableCondition (_c : Conditions) (reason message : String) : Conditions :=
  { available := ⟨.condTrue, reason, message⟩
    progressing := ⟨.condFalse, reason, message⟩
    degraded := ⟨.condFalse, reason, message⟩
    upgradeable := ⟨.condTrue, reason, message⟩ }

/-- `util.SetProgressingCondition`. -/
def SetProgressingCondition (_c : Conditions) (reason message : String) : Conditions :=
  { available := ⟨.condFalse, reason, message⟩
    progressing := ⟨.condTrue, reason, message⟩
    degraded := ⟨.condFalse, reason, message⟩
    upgradeable := ⟨.condFalse, reason, message⟩ }

/-- `util.SetErrorCondition`. -/
def SetErrorCondition (_c : Conditions) (reason message : String) : Conditions :=
  { available := ⟨.condUnknown, reason, message⟩
    progressing := ⟨.condFalse, reason, message⟩
    degraded := ⟨.condTrue, reason, message⟩
    upgradeable := ⟨.condUnknown, reason, message⟩ }

/-- `nbv1.NamespaceStoreStatus`: phase, conditions and the remote-reported
mode code (`Status.Mode.ModeCode`). -/
structure NamespaceStoreStatus where
  phase : NamespaceStorePhase
  conditions : Conditions
  modeCode : String
  deriving DecidableEq, Repr

/-- `Reconciler.SetPhase`: `none` stands for the empty phase string (leave the
phase as is, just record a Progressing condition); otherwise the phase is
stored and the condition set picked by the phase kind. -/
def SetPhase (st : NamespaceStoreStatus) (phase : Option NamespaceStorePhase)
    (reason message : String) : NamespaceStoreStatus :=
  match phase with
  | none => { st with conditions := SetProgressingCondition st.conditions reason message }
  | some p =>
    match p with
    | .ready =>
      { st with phase := p, conditions := SetAvailableCondition st.conditions reason message }
    | .rejected =>
      { st with phase := p, conditions := SetErrorCondition st.conditions reason message }
    | _ =>
      { st with phase := p, conditions := SetProgressingCondition st.conditions reason message }

/-- `ModeInfo` of the reconciler: phase + event severity per mode code. -/
structure ModeInfo where
  phase : NamespaceStorePhase
  severity : String
  deriving DecidableEq, Repr

/-- `modeInfoMap` of the namespace-store reconciler (lookup in the fixed Go
map literal; `none` for a key that is absent). -/
def modeInfoMap : String → Option ModeInfo := fun mode =>
  if mode = "OPTIMAL" then some ⟨.ready, "Normal"⟩
  else if mode = "IO_ERRORS" then some ⟨.rejected, "Warning"⟩
  else if mode = "STORAGE_NOT_EXIST" then some ⟨.rejected, "Warning"⟩
  else if mode = "AUTH_FAILED" then some ⟨.rejected, "Warning"⟩
  else none

/-- A `Recorder.Eventf` emission: severity, reason, message. -/
structure Event where
  eventtype : String
  reason : String
  message : String
  deriving DecidableEq, Repr

/- ===================== remote system info model ===================== -/

/-- `nb.ExternalConnectionInfo` as listed under an account of the system
info: only the fields the reconciler reads. -/
structure ExternalConnectionInfo where
  name : String
  endpointType : String
  endpoint : String
  identity : String
  deriving DecidableEq, Repr

/-- `nb.AccountInfo`: only the fields the reconciler reads. -/
structure AccountInfo where
  email : String
  hasS3Access : Bool
  defaultResource : String
  allowedBucketsPermissionList : Option (List String)
  connections : List ExternalConnectionInfo
  deriving DecidableEq, Repr

/-- `nb.PoolInfo`: only the fields the reconciler reads. -/
structure PoolInfo where
  name : String
  resourceType : String
  deriving DecidableEq, Repr

/-- `nb.NamespaceResourceInfo`: only the fields the reconciler reads. -/
structure NamespaceResourceInfo where
  name : String
  endpointType : String
  endpoint : String
  identity : String
  deriving DecidableEq, Repr

/-- `nb.SystemInfo`: only the lists the reconciler reads. -/
structure SystemInfo where
  accounts : List AccountInfo
  pools : List PoolInfo
  namespaceResources : List NamespaceResourceInfo
  deriving DecidableEq, Repr

/-- `nb.AddExternalConnectionParams`. -/
structure AddExternalConnectionParams where
  name : String
  endpointType : String
  endpoint : String
  identity : String
  secret : String
  authMethod : String
  deriving DecidableEq, Repr

/-- `nb.NSFSConfig`. -/
structure NSFSConfig where
  fsBackend : String
  fsRootPath : String
  deriving DecidableEq, Repr

/-- `nb.NamespaceStoreInfo`. -/
structure NamespaceStoreInfo where
  name : String
  namespaceName : String
  deriving DecidableEq, Repr

/-- `nb.CreateNamespaceResourceParams`. -/
structure CreateNamespaceResourceParams where
  name : String
  connection : String
  targetBucket : String
  nsfsConfig : Option NSFSConfig
  nsStoreInfo : Option NamespaceStoreInfo
  deriving DecidableEq, Repr

/-- `nbv1.NSStoreType`: the closed store-type discriminator. -/
inductive StoreType
  | awsS3 | s3Compatible | ibmCos | azureBlob | nsfs | invalidType (s : String)
  deriving DecidableEq, Repr

/-- The fields of the `NamespaceStore` record that the reconcile flow reads
(spec fields, `CreationTimestamp` age in seconds, deletion mark). -/
structure NamespaceStoreRecord where
  name : String
  specType : StoreType
  nsfsFsBackend : String
  nsfsFsRootPath : String
  targetBucket : String
  secretName : String
  ageSeconds : Nat
  deletionRequested : Bool
  deriving DecidableEq, Repr

/-- `options.Namespace`: the operator namespace global. -/
def optionsNamespace : String := "noobaa"

/- ===================== connection resolver / dedup ===================== -/

/-- The match condition of the connection-reuse loop of `ReadSystemInfo`:
the (endpoint-type, endpoint, identity) triple of an existing connection
equals the desired one. -/
def connMatches (conn : AddExternalConnectionParams) (c : ExternalConnectionInfo) : Bool :=
  c.endpointType == conn.endpointType && c.endpoint == conn.endpoint &&
    c.identity == conn.identity

/-- The body of the inner connection-reuse loop of `ReadSystemInfo`: a match
overwrites the reused connection and the descriptor name; there is no break. -/
def dedupStep (acc : Option ExternalConnectionInfo × AddExternalConnectionParams)
    (c : ExternalConnectionInfo) : Option ExternalConnectionInfo × AddExternalConnectionParams :=
  if connMatches acc.2 c then (some c, { acc.2 with name := c.name }) else acc

/-- The connection-reuse double loop of `ReadSystemInfo`, verbatim: every
match overwrites `ExternalConnectionInfo` and `conn.Name`, with no break. -/
def dedupConnection (accounts : List AccountInfo) (conn : AddExternalConnectionParams) :
    Option ExternalConnectionInfo × AddExternalConnectionParams :=
  accounts.foldl
    (fun acc account => account.connections.foldl dedupStep acc)
    (none, conn)

/-- All connections of the system info in the scan order of the double loop. -/
def allConnections (accounts : List AccountInfo) : List ExternalConnectionInfo :=
  (accounts.map fun a => a.connections).flatten

/-- The first connection matching the desired triple, in scan order. -/
def firstMatch (conn : AddExternalConnectionParams) (l : List ExternalConnectionInfo) :
    Option ExternalConnectionInfo :=
  l.find? (connMatches conn)

/-- The last connection matching the desired triple, in scan order. -/
def lastMatch (conn : AddExternalConnectionParams) (l : List ExternalConnectionInfo) :
    Option ExternalConnectionInfo :=
  match l with
  | [] => none
  | c :: rest =>
    match lastMatch conn rest with
    | some m => some m
    | none => if connMatches conn c then some c else none

/- ===================== ReadSystemInfo ===================== -/

/-- Responses of the external collaborators consumed by `ReadSystemInfo`:
the combined `system.Connect` + `ReadSystemAPI` outcome, and the outcome of
`MakeExternalConnectionParams` (whose URL/secret validation logic is not
re-modelled; only its classified result is needed). -/
structure ReadSystemInfoEnv where
  sysInfoOutcome : Except GoError SystemInfo
  makeConnOutcome : Except GoError AddExternalConnectionParams
  deriving Repr

/-- The reconciler fields populated by a successful `ReadSystemInfo`. -/
structure ReadSystemInfoOk where
  systemInfo : SystemInfo
  namespaceResourceInfo : Option NamespaceResourceInfo
  externalConnectionInfo : Option ExternalConnectionInfo
  addExternalConnectionParams : Option AddExternalConnectionParams
  createNamespaceResourceParams : Option CreateNamespaceResourceParams
  calledMakeConnParams : Bool
  deriving DecidableEq, Repr

/-- `Reconciler.ReadSystemInfo`: load system info, find the namespace
resource by name, return early with NSFS create params for the NSFS type,
otherwise build the desired connection descriptor, reuse a registered
connection whose triple matches, and prepare the create params. -/
def ReadSystemInfo (rec : NamespaceStoreRecord) (env : ReadSystemInfoEnv) :
    Except GoError ReadSystemInfoOk :=
  match env.sysInfoOutcome with
  | .error e => .error e
  | .ok si =>
    let nsr := si.namespaceResources.find? (fun n => n.name == rec.name)
    if rec.specType == StoreType.nsfs then
      .ok
        { systemInfo := si
          namespaceResourceInfo := nsr
          externalConnectionInfo := none
          addExternalConnectionParams := none
          createNamespaceResourceParams := some
            { name := rec.name
              connection := ""
              targetBucket := ""
              nsfsConfig := some ⟨rec.nsfsFsBackend, rec.nsfsFsRootPath⟩
              nsStoreInfo := some ⟨rec.name, optionsNamespace⟩ }
          calledMakeConnParams := false }
    else
      match env.makeConnOutcome with
      | .error e => .error e
      | .ok conn0 =>
        let deduped := dedupConnection si.accounts conn0
        .ok
          { systemInfo := si
            namespaceResourceInfo := nsr
            externalConnectionInfo := deduped.1
            addExternalConnectionParams := some deduped.2
            createNamespaceResourceParams := some
              { name := rec.name
                connection := deduped.2.name
                targetBucket := rec.targetBucket
                nsfsConfig := none
                nsStoreInfo := some ⟨rec.name, optionsNamespace⟩ }
            calledMakeConnParams := true }

/- ===================== creating phase ===================== -/

/-- `nb.ExternalConnectionStatus` values returned by
`CheckExternalConnectionAPI`. -/
inductive ConnStatus
  | success | invalidCredentials | invalidEndpoint | timeSkew | notSupported
  | timeout | unknownFailure
  deriving DecidableEq, Repr

/-- The Go string constant behind each connection status value. -/
def ConnStatus.str : ConnStatus → String
  | .success => "SUCCESS"
  | .invalidCredentials => "INVALID_CREDENTIALS"
  | .invalidEndpoint => "INVALID_ENDPOINT"
  | .timeSkew => "TIME_SKEW"
  | .notSupported => "NOT_SUPPORTED"
  | .timeout => "TIMEOUT"
  | .unknownFailure => "UNKNOWN_FAILURE"

/-- `nb.CheckExternalConnectionReply`: status plus the error detail. -/
structure CheckExternalConnectionReply where
  status : ConnStatus
  errorCode : String
  errorMessage : String
  deriving DecidableEq, Repr

/-- Responses of the noobaa RPC calls of the creating phase. -/
structure CreatingEnv where
  checkOutcome : Except GoError CheckExternalConnectionReply
  addConnectionErr : Option GoError
  createResourceErr : Option GoError
  deriving Repr

/-- The outbound noobaa API calls issued during reconcile, as a trace. -/
inductive APICall
  | checkExternalConnection (p : AddExternalConnectionParams)
  | addExternalConnection (p : AddExternalConnectionParams)
  | createNamespaceResource (p : CreateNamespaceResourceParams)
  | deleteNamespaceResource (name : String)
  | deleteExternalConnection (name : String)
  | updateAccountS3Access (email : String) (defaultResourceOverride : String)
  | removeFinalizer
  deriving DecidableEq, Repr

/-- `Reconciler.ReconcileExternalConnection`: skip when a connection was
reused or no params were prepared; otherwise check the connection, branch on
the reply status (the Go `switch` with its `fallthrough` chains re-checking
the record age), and register the connection only on success. -/
def ReconcileExternalConnection (rec : NamespaceStoreRecord)
    (eci : Option ExternalConnectionInfo) (addParams : Option AddExternalConnectionParams)
    (env : CreatingEnv) : Option GoError × List APICall :=
  match eci with
  | some _ => (none, [])
  | none =>
    match addParams with
    | none => (none, [])
    | some p =>
      match env.checkOutcome with
      | .error e =>
        match e with
        | .rpcE code msg =>
          if code == "INVALID_SCHEMA_PARAMS" then
            (some (NewPersistentError "InvalidConnectionParams" msg),
             [.checkExternalConnection p])
          else (some (.rpcE code msg), [.checkExternalConnection p])
        | _ => (some e, [.checkExternalConnection p])
      | .ok res =>
        match res.status with
        | .success =>
          match env.addConnectionErr with
          | some e => (some e, [.checkExternalConnection p, .addExternalConnection p])
          | none => (none, [.checkExternalConnection p, .addExternalConnection p])
        | .invalidCredentials =>
          if rec.ageSeconds < 300 then
            (some (.basicE "Got InvalidCredentials. requeue again"), [.checkExternalConnection p])
          else if rec.ageSeconds < 300 then
            (some (.basicE "got invalid endopint. requeue again"), [.checkExternalConnection p])
          else
            (some (NewPersistentError res.status.str
              ("NamespaceStore " ++ rec.name ++ " invalid external connection " ++ res.status.str)),
             [.checkExternalConnection p])
        | .invalidEndpoint =>
          if rec.ageSeconds < 300 then
            (some (.basicE "got invalid endopint. requeue again"), [.checkExternalConnection p])
          else
            (some (NewPersistentError res.status.str
              ("NamespaceStore " ++ rec.name ++ " invalid external connection " ++ res.status.str)),
             [.checkExternalConnection p])
        | .timeSkew =>
          (some (NewPersistentError res.status.str
            ("NamespaceStore " ++ rec.name ++ " invalid external connection " ++ res.status.str)),
           [.checkExternalConnection p])
        | .notSupported =>
          (some (NewPersistentError res.status.str
            ("NamespaceStore " ++ rec.name ++ " invalid external connection " ++ res.status.str)),
           [.checkExternalConnection p])
        | .timeout =>
          (some (.basicE ("CheckExternalConnection Status=" ++ res.status.str ++
            " Error=" ++ res.errorCode ++ " Message=" ++ res.errorMessage)),
           [.checkExternalConnection p])
        | .unknownFailure =>
          (some (.basicE ("CheckExternalConnection Status=" ++ res.status.str ++
            " Error=" ++ res.errorCode ++ " Message=" ++ res.errorMessage)),
           [.checkExternalConnection p])

/-- `Reconciler.ReconcileNamespaceStore`: create the remote resource unless a
handle already exists. -/
def ReconcileNamespaceStore (nsrInfo : Option NamespaceResourceInfo)
    (createParams : Option CreateNamespaceResourceParams)
    (createResourceErr : Option GoError) : Option GoError × List APICall :=
  match nsrInfo with
  | some _ => (none, [])
  | none =>
    match createParams with
    | some p => (createResourceErr, [.createNamespaceResource p])
    | none => (none, [])

/- ===================== deletion path ===================== -/

/-- The first pool of resource type INTERNAL of the system info (the loop
with `break`), or the empty string. -/
def internalPoolName (pools : List PoolInfo) : String :=
  match pools.find? (fun p => p.resourceType == "INTERNAL") with
  | some p => p.name
  | none => ""

/-- Responses of the collaborators consumed by `ReconcileDeletion`:
the intermediate status update after publishing the Deleting phase, the
`ReadSystemInfo` collaborators, the per-account `UpdateAccountS3Access`
outcome (keyed by account email), and the two remote delete calls, plus
whether the finalizer-removing `KubeUpdate` succeeds. -/
structure DeletionEnv where
  updateStatusErr : Option GoError
  readEnv : ReadSystemInfoEnv
  updateAccountErrs : String → Option GoError
  deleteResourceErr : Option GoError
  deleteConnectionErr : Option GoError
  kubeUpdateOk : Bool

/-- The loop of `ReconcileDeletion` resetting the default resource of every
account that points at the deleted resource, stopping at the first account
update error. -/
def updateDefaultAccounts (accounts : List AccountInfo) (resName poolName : String)
    (errOf : String → Option GoError) : Option GoError × List APICall :=
  match accounts with
  | [] => (none, [])
  | account :: rest =>
    if account.defaultResource == resName then
      match errOf account.email with
      | some e => (some e, [.updateAccountS3Access account.email poolName])
      | none =>
        let r := updateDefaultAccounts rest resName poolName errOf
        (r.1, .updateAccountS3Access account.email poolName :: r.2)
    else updateDefaultAccounts rest resName poolName errOf

/-- `Reconciler.FinalizeDeletion`: remove the finalizer in memory and write
the record back; a failed `KubeUpdate` is an error. -/
def FinalizeDeletion (kubeUpdateOk : Bool) (storeName : String) : Option GoError :=
  if kubeUpdateOk then none
  else some (.basicE ("NamespaceStore " ++ storeName ++ " failed to remove finalizer"))

/-- What a deletion attempt produced: the returned error, the status after
the Deleting-phase publication, the outbound call trace, and whether the
finalizer removal was written back to the cluster. -/
structure DeletionOutcome where
  err : Option GoError
  status : NamespaceStoreStatus
  calls : List APICall
  finalizerRemoved : Bool
  deriving Repr

/-- The resource-deletion block of `ReconcileDeletion`: when a resource
handle exists, detach every account whose default resource points at it,
then delete the remote resource; an IN_USE rpc failure becomes a hard
"buckets attached" error. -/
def deletionResourceStep (rsi : ReadSystemInfoOk) (env : DeletionEnv) :
    Option GoError × List APICall :=
  match rsi.namespaceResourceInfo with
  | none => (none, [])
  | some nsr =>
    let poolName := internalPoolName rsi.systemInfo.pools
    let upd := updateDefaultAccounts rsi.systemInfo.accounts nsr.name poolName
      env.updateAccountErrs
    match upd.1 with
    | some e => (some e, upd.2)
    | none =>
      let calls := upd.2 ++ [.deleteNamespaceResource nsr.name]
      match env.deleteResourceErr with
      | some (.rpcE code msg) =>
        if code == "IN_USE" then
          (some (.basicE ("DeleteNamespaceResourceAPI cannot complete because namespace store "
            ++ nsr.name ++ " has buckets attached")), calls)
        else (some (.rpcE code msg), calls)
      | some e => (some e, calls)
      | none => (none, calls)

/-- The connection-deletion block of `ReconcileDeletion`: when a reused
connection exists, delete it; an IN_USE rpc failure is tolerated with a
warning, any other failure is fatal to the attempt. -/
def deletionConnStep (rsi : ReadSystemInfoOk) (env : DeletionEnv) :
    Option GoError × List APICall :=
  match rsi.externalConnectionInfo with
  | none => (none, [])
  | some eci =>
    match env.deleteConnectionErr with
    | some (.rpcE code msg) =>
      if code != "IN_USE" then (some (.rpcE code msg), [.deleteExternalConnection eci.name])
      else (none, [.deleteExternalConnection eci.name])
    | some e => (some e, [.deleteExternalConnection eci.name])
    | none => (none, [.deleteExternalConnection eci.name])

/-- `Reconciler.ReconcileDeletion`: publish the Deleting phase once, skip all
cleanup when the owning system is gone, otherwise read the remote state,
detach dependent accounts and delete the resource (an IN_USE rpc failure is a
hard failure), delete the connection (IN_USE tolerated with a warning), and
only then remove the finalizer. -/
def ReconcileDeletion (rec : NamespaceStoreRecord) (st : NamespaceStoreStatus)
    (noobaaUID : String) (env : DeletionEnv) : DeletionOutcome :=
  let phaseStep : Option GoError × NamespaceStoreStatus :=
    if st.phase != NamespaceStorePhase.deleting then
      ( env.updateStatusErr
      , SetPhase st (some .deleting) "NamespaceStorePhaseDeleting" "noobaa operator started deletion" )
    else (none, st)
  match phaseStep with
  | (some e, st2) => { err := some e, status := st2, calls := [], finalizerRemoved := false }
  | (none, st2) =>
    if noobaaUID == "" then
      { err := FinalizeDeletion env.kubeUpdateOk rec.name
        status := st2
        calls := [.removeFinalizer]
        finalizerRemoved := env.kubeUpdateOk }
    else
      match ReadSystemInfo rec env.readEnv with
      | .error e => { err := some e, status := st2, calls := [], finalizerRemoved := false }
      | .ok rsi =>
        match deletionResourceStep rsi env with
        | (some e, calls1) =>
          { err := some e, status := st2, calls := calls1, finalizerRemoved := false }
        | (none, calls1) =>
          match deletionConnStep rsi env with
          | (some e, calls2) =>
            { err := some e, status := st2, calls := calls1 ++ calls2, finalizerRemoved := false }
          | (none, calls2) =>
            { err := FinalizeDeletion env.kubeUpdateOk rec.name
              status := st2
              calls := calls1 ++ calls2 ++ [.removeFinalizer]
              finalizerRemoved := env.kubeUpdateOk }

/- ===================== forward phase machine ===================== -/

/-- Responses of the collaborators consumed by the forward phases. -/
structure PhasesEnv where
  readEnv : ReadSystemInfoEnv
  creatingEnv : CreatingEnv

/-- `Reconciler.ReconcilePhaseVerifying`: publish the Verifying phase, then
require the owning system, then require a declared credential secret to
resolve — tolerating a missing secret only within the five-minute grace
window of the record's age. -/
def ReconcilePhaseVerifying (rec : NamespaceStoreRecord) (noobaaUID noobaaName secretUID : String)
    (st : NamespaceStoreStatus) : Option GoError × NamespaceStoreStatus :=
  let st2 := SetPhase st (some .verifying) "NamespaceStorePhaseVerifying"
    "noobaa operator started phase 1/3 - Verifying"
  if noobaaUID == "" then
    (some (NewPersistentError "MissingSystem"
      ("NooBaa system " ++ noobaaName ++ " not found or deleted")), st2)
  else if rec.secretName != "" && secretUID == "" then
    if rec.ageSeconds < 300 then
      (some (.basicE ("NamespaceStore Secret " ++ rec.secretName ++
        " not found, but not rejecting the young as it might be in process")), st2)
    else
      (some (NewPersistentError "MissingSecret"
        ("NamespaceStore Secret " ++ rec.secretName ++ " not found or deleted")), st2)
  else (none, st2)

/-- `Reconciler.ReconcilePhases`: Verifying, Connecting (`ReadSystemInfo`),
Creating (`ReconcileExternalConnection` then `ReconcileNamespaceStore`),
stopping at the first error; the status threads the intermediate phase
publications. -/
def ReconcilePhases (rec : NamespaceStoreRecord) (noobaaUID noobaaName secretUID : String)
    (env : PhasesEnv) (st : NamespaceStoreStatus) :
    Option GoError × NamespaceStoreStatus × List APICall :=
  match ReconcilePhaseVerifying rec noobaaUID noobaaName secretUID st with
  | (some e, st1) => (some e, st1, [])
  | (none, st1) =>
    let st2 := SetPhase st1 (some .connecting) "NamespaceStorePhaseConnecting"
      "noobaa operator started phase 2/3 - Connecting"
    match ReadSystemInfo rec env.readEnv with
    | .error e => (some e, st2, [])
    | .ok rsi =>
      let st3 := SetPhase st2 (some .creating) "NamespaceStorePhaseCreating"
        "noobaa operator started phase 3/3 - Creating"
      match ReconcileExternalConnection rec rsi.externalConnectionInfo
          rsi.addExternalConnectionParams env.creatingEnv with
      | (some e, calls) => (some e, st3, calls)
      | (none, calls) =>
        match ReconcileNamespaceStore rsi.namespaceResourceInfo
            rsi.createNamespaceResourceParams env.creatingEnv.createResourceErr with
        | (some e, calls2) => (some e, st3, calls ++ calls2)
        | (none, calls2) => (none, st3, calls ++ calls2)

/- ===================== top-level Reconcile ===================== -/

/-- Responses of the collaborators consumed by `Reconcile` itself. -/
structure ReconcileEnv where
  nsUID : String
  noobaaUID : String
  noobaaName : String
  secretUID : String
  metaNeedsUpdate : Bool
  metaKubeUpdateOk : Bool
  phasesEnv : PhasesEnv
  deletionEnv : DeletionEnv
  updateStatusErr : Option GoError

/-- What one `Reconcile` call produced: the requeue-after duration of the
returned result (in seconds, 0 meaning unset), the returned error component,
the published status, the emitted events and outbound calls, and whether the
finalizer was removed. -/
structure ReconcileOutcome where
  requeueSeconds : Nat
  err : Option GoError
  status : NamespaceStoreStatus
  events : List Event
  calls : List APICall
  finalizerRemoved : Bool

/-- The flow step of `Reconcile`: the deletion path under a deletion mark,
the forward phase machine otherwise.  Returns (error, status, calls,
finalizer removed). -/
def reconcileFlow (rec : NamespaceStoreRecord) (st0 : NamespaceStoreStatus)
    (env : ReconcileEnv) : Option GoError × NamespaceStoreStatus × List APICall × Bool :=
  if rec.deletionRequested then
    let d := ReconcileDeletion rec st0 env.noobaaUID env.deletionEnv
    (d.err, d.status, d.calls, d.finalizerRemoved)
  else
    let p := ReconcilePhases rec env.noobaaUID env.noobaaName env.secretUID env.phasesEnv st0
    (p.1, p.2.1, p.2.2, false)

/-- The tail of `Reconcile` (the error classifier, the mode table lookup and
the final status update): returns (requeue seconds, status, events). -/
def reconcileEpilogue (st1 : NamespaceStoreStatus) (err : Option GoError)
    (updateStatusErr : Option GoError) : Nat × NamespaceStoreStatus × List Event :=
  let branch : Nat × NamespaceStoreStatus × List Event :=
    match err with
    | some (.persistentE reason msg) =>
      (0, SetPhase st1 (some .rejected) reason msg, [⟨"Warning", reason, msg⟩])
    | some e =>
      (3, SetPhase st1 none "TemporaryError" e.message, [])
    | none =>
      match modeInfoMap st1.modeCode with
      | some info =>
        if info.phase != st1.phase then
          let phaseName := "NamespaceStorePhase" ++ phaseStr info.phase
          let desc := "Namespace store mode: " ++ st1.modeCode
          (0, SetPhase st1 (some info.phase) desc phaseName, [⟨info.severity, phaseName, desc⟩])
        else
          (0, SetPhase st1 (some .ready) "NamespaceStorePhaseReady"
            "noobaa operator completed reconcile - namespace store is ready", [])
      | none =>
        (0, SetPhase st1 (some .ready) "NamespaceStorePhaseReady"
          "noobaa operator completed reconcile - namespace store is ready", [])
  let requeue := if updateStatusErr.isSome then 3 else branch.1
  (requeue, branch.2.1, branch.2.2)

/-- `Reconciler.Reconcile`: skip a vanished record, requeue on a failed
mandatory-meta update, run the deletion path or the phase machine, classify
the error (Rejected + warning event for a persistent error, Progressing
condition + 3s requeue for a transient one), re-derive the phase from the
mode table when no error occurred, and requeue on a failed final status
update.  The returned error component is always nil. -/
def Reconcile (rec : NamespaceStoreRecord) (st0 : NamespaceStoreStatus)
    (env : ReconcileEnv) : ReconcileOutcome :=
  if env.nsUID == "" then
    { requeueSeconds := 0, err := none, status := st0, events := [], calls := []
      finalizerRemoved := false }
  else if env.metaNeedsUpdate && !env.metaKubeUpdateOk then
    { requeueSeconds := 3, err := none, status := st0, events := [], calls := []
      finalizerRemoved := false }
  else
    let flow := reconcileFlow rec st0 env
    let epi := reconcileEpilogue flow.2.1 flow.1 env.updateStatusErr
    { requeueSeconds := epi.1
      err := none
      status := epi.2.1
      events := epi.2.2
      calls := flow.2.2.1
      finalizerRemoved := flow.2.2.2 }

/- ===================== concrete sample inputs ===================== -/

/-- A sample condition set. -/
def exConditions : Conditions :=
  ⟨⟨.condTrue, "", ""⟩, ⟨.condFalse, "", ""⟩, ⟨.condFalse, "", ""⟩, ⟨.condTrue, "", ""⟩⟩

/-- A sample loaded status whose remote-reported mode is AUTH_FAILED. -/
def exStatus : NamespaceStoreStatus :=
  { phase := .ready, conditions := exConditions, modeCode := "AUTH_FAILED" }

/-- The desired connection descriptor built for the sample record. -/
def exConn0 : AddExternalConnectionParams :=
  { name := "ns-store-1", endpointType := "AWS", endpoint := "https://s3.amazonaws.com"
    identity := "AKIA123", secret := "s3cr3t", authMethod := "" }

/-- A registered connection whose triple matches the sample descriptor. -/
def exConnA : ExternalConnectionInfo :=
  { name := "conn-a", endpointType := "AWS", endpoint := "https://s3.amazonaws.com"
    identity := "AKIA123" }

/-- A second registered connection with the same triple but another name. -/
def exConnB : ExternalConnectionInfo :=
  { name := "conn-b", endpointType := "AWS", endpoint := "https://s3.amazonaws.com"
    identity := "AKIA123" }

/-- A sample account listing both matching connections, in scan order. -/
def exAccount : AccountInfo :=
  { email := "admin@noobaa.io", hasS3Access := true, defaultResource := "ns-store-1"
    allowedBucketsPermissionList := none, connections := [exConnA, exConnB] }

/-- A sample remote system info. -/
def exSystemInfo : SystemInfo :=
  { accounts := [exAccount]
    pools := [⟨"system-internal-storage-pool", "INTERNAL"⟩]
    namespaceResources := [] }

/-- A sample record: aws-s3 type, past the five-minute grace window. -/
def exRec : NamespaceStoreRecord :=
  { name := "ns-store-1", specType := .awsS3, nsfsFsBackend := "", nsfsFsRootPath := ""
    targetBucket := "bucket1", secretName := "secret1", ageSeconds := 400
    deletionRequested := false }

/-- The sample record within the grace window. -/
def exRecYoung : NamespaceStoreRecord := { exRec with ageSeconds := 1 }

/-- Sample collaborator responses for `ReadSystemInfo`: both calls succeed. -/
def exReadEnv : ReadSystemInfoEnv :=
  { sysInfoOutcome := .ok exSystemInfo, makeConnOutcome := .ok exConn0 }

/-- Sample creating-phase responses: the connection check succeeds. -/
def exCreatingEnv : CreatingEnv :=
  { checkOutcome := .ok ⟨.success, "", ""⟩, addConnectionErr := none, createResourceErr := none }

/-- Sample phase-machine collaborator responses. -/
def exPhasesEnv : PhasesEnv := ⟨exReadEnv, exCreatingEnv⟩

/-- Sample deletion collaborator responses: everything succeeds. -/
def exDeletionEnv : DeletionEnv :=
  { updateStatusErr := none, readEnv := exReadEnv, updateAccountErrs := fun _ => none
    deleteResourceErr := none, deleteConnectionErr := none, kubeUpdateOk := true }

/-- Sample top-level collaborator responses: everything present and ok. -/
def exEnv : ReconcileEnv :=
  { nsUID := "uid-1", noobaaUID := "uid-nb", noobaaName := "noobaa", secretUID := "uid-sec"
    metaNeedsUpdate := false, metaKubeUpdateOk := true, phasesEnv := exPhasesEnv
    deletionEnv := exDeletionEnv, updateStatusErr := none }

/- ===================== claim theorems ===================== -/

/-- C2: the error component of the pair returned by the namespace-store
`Reconcile` entrypoint is nil on every path — record not found, failed meta
update, persistent or transient flow errors, and status-update failure —
with retry expressed only through the requeue-after duration. -/
theorem C2_reconcile_error_component_always_nil
    (rec : NamespaceStoreRecord) (st0 : NamespaceStoreStatus) (env : ReconcileEnv) :
    (Reconcile rec st0 env).err = none := by
  unfold Reconcile
  split
  · rfl
  · split
    · rfl
    · rfl

/-- Closed instance of `C2_reconcile_error_component_always_nil`. -/
theorem C2_witness : (Reconcile exRec exStatus exEnv).err = none :=
  C2_reconcile_error_component_always_nil exRec exStatus exEnv

/-- C8: a list of errors holding at least one persistent and one non-nil
non-persistent error combines (via `CombineErrors`) to a persistent error,
whatever the order; with no persistent error in the list the first non-nil
error is returned. -/
theorem C8_combineErrors_persistent_wins (errs : List (Option GoError)) :
    (hasPersistent errs = true →
      (∃ o ∈ errs, o.isSome ∧ isPersistentOpt o = false) →
      ∃ e, CombineErrors errs = some e ∧ IsPersistentError e = true) ∧
    (hasPersistent errs = false → CombineErrors errs = firstNonNil errs) := by
  constructor
  · intro hp _
    rw [combineErrors_eq_firstPersistent errs hp]
    have hs := firstPersistent_isSome_of_hasPersistent errs hp
    cases hfp : firstPersistent errs with
    | none => rw [hfp] at hs; simp at hs
    | some p => exact ⟨p, rfl, firstPersistent_isPersistent errs p hfp⟩
  · exact combineErrors_eq_firstNonNil errs

/-- A sample error list mixing transient and persistent entries. -/
def exErrListMixed : List (Option GoError) :=
  [none, some (.basicE "t1"), some (.persistentE "Reason" "Message"), some (.basicE "t2")]

/-- A sample error list with no persistent entry. -/
def exErrListTransient : List (Option GoError) :=
  [none, some (.basicE "t1"), some (.rpcE "CODE" "t2")]

/-- Closed instance of `C8_combineErrors_persistent_wins` on both sample
lists. -/
theorem C8_witness :
    (∃ e, CombineErrors exErrListMixed = some e ∧ IsPersistentError e = true) ∧
    CombineErrors exErrListTransient = firstNonNil exErrListTransient :=
  ⟨(C8_combineErrors_persistent_wins exErrListMixed).1 (by decide) (by decide),
   (C8_combineErrors_persistent_wins exErrListTransient).2 (by decide)⟩

/-- C4: in the Verifying phase, with the owning system present, a declared
credential secret that does not resolve yields a transient error while the
record is younger than five minutes and a persistent MissingSecret error
from five minutes of age on. -/
theorem C4_verifying_secret_grace_window
    (rec : NamespaceStoreRecord) (noobaaUID noobaaName secretUID : String)
    (st : NamespaceStoreStatus)
    (hsys : noobaaUID ≠ "") (hname : rec.secretName ≠ "") (huid : secretUID = "") :
    (rec.ageSeconds < 300 →
      ∃ e, (ReconcilePhaseVerifying rec noobaaUID noobaaName secretUID st).1 = some e ∧
        IsPersistentError e = false) ∧
    (300 ≤ rec.ageSeconds →
      (ReconcilePhaseVerifying rec noobaaUID noobaaName secretUID st).1 =
        some (NewPersistentError "MissingSecret"
          ("NamespaceStore Secret " ++ rec.secretName ++ " not found or deleted"))) := by
  have h1 : (noobaaUID == "") = false := beq_eq_false_iff_ne.mpr hsys
  have h2 : (rec.secretName != "") = true := by
    simp [bne, beq_eq_false_iff_ne.mpr hname]
  subst huid
  constructor
  · intro hage
    refine ⟨.basicE ("NamespaceStore Secret " ++ rec.secretName ++
      " not found, but not rejecting the young as it might be in process"), ?_, rfl⟩
    simp [ReconcilePhaseVerifying, h1, h2, hage]
  · intro hage
    have hage2 : ¬ rec.ageSeconds < 300 := not_lt.mpr hage
    simp [ReconcilePhaseVerifying, h1, h2, hage2, NewPersistentError]

/-- Closed instance of `C4_verifying_secret_grace_window`: the sample record
at age 1s yields a transient error, at age 400s the persistent
MissingSecret. -/
theorem C4_witness :
    (∃ e, (ReconcilePhaseVerifying exRecYoung "uid-nb" "noobaa" "" exStatus).1 = some e ∧
      IsPersistentError e = false) ∧
    (ReconcilePhaseVerifying exRec "uid-nb" "noobaa" "" exStatus).1 =
      some (NewPersistentError "MissingSecret"
        ("NamespaceStore Secret " ++ exRec.secretName ++ " not found or deleted")) :=
  ⟨(C4_verifying_secret_grace_window exRecYoung "uid-nb" "noobaa" "" exStatus
      (by decide) (by decide) rfl).1 (by decide),
   (C4_verifying_secret_grace_window exRec "uid-nb" "noobaa" "" exStatus
      (by decide) (by decide) rfl).2 (by decide)⟩

/-- C10: for the local-filesystem (NSFS) store type, `ReadSystemInfo` builds
the create-resource params from the NSFS config and returns before the
connection descriptor is constructed: the add-connection params stay nil,
the descriptor validations are never run, and the Creating phase neither
checks nor registers a connection. -/
theorem C10_nsfs_skips_connection
    (rec : NamespaceStoreRecord) (env : ReadSystemInfoEnv) (si : SystemInfo)
    (cenv : CreatingEnv)
    (htype : rec.specType = .nsfs) (hsi : env.sysInfoOutcome = .ok si) :
    ∃ rsi, ReadSystemInfo rec env = .ok rsi ∧
      rsi.createNamespaceResourceParams = some
        { name := rec.name, connection := "", targetBucket := ""
          nsfsConfig := some ⟨rec.nsfsFsBackend, rec.nsfsFsRootPath⟩
          nsStoreInfo := some ⟨rec.name, optionsNamespace⟩ } ∧
      rsi.addExternalConnectionParams = none ∧
      rsi.calledMakeConnParams = false ∧
      ReconcileExternalConnection rec rsi.externalConnectionInfo
        rsi.addExternalConnectionParams cenv = (none, []) := by
  have ht : (rec.specType == StoreType.nsfs) = true := by
    rw [htype]; rfl
  refine ⟨{ systemInfo := si
            namespaceResourceInfo := si.namespaceResources.find? (fun n => n.name == rec.name)
            externalConnectionInfo := none
            addExternalConnectionParams := none
            createNamespaceResourceParams := some
              { name := rec.name, connection := "", targetBucket := ""
                nsfsConfig := some ⟨rec.nsfsFsBackend, rec.nsfsFsRootPath⟩
                nsStoreInfo := some ⟨rec.name, optionsNamespace⟩ }
            calledMakeConnParams := false }, ?_, rfl, rfl, rfl, rfl⟩
  unfold ReadSystemInfo
  rw [hsi]
  simp only [ht, if_true]

/-- Closed instance of `C10_nsfs_skips_connection` on a sample NSFS record. -/
theorem C10_witness :
    ∃ rsi, ReadSystemInfo
        { exRec with specType := .nsfs, nsfsFsBackend := "GPFS", nsfsFsRootPath := "/nsfs" }
        exReadEnv = .ok rsi ∧
      rsi.createNamespaceResourceParams = some
        { name := "ns-store-1", connection := "", targetBucket := ""
          nsfsConfig := some ⟨"GPFS", "/nsfs"⟩
          nsStoreInfo := some ⟨"ns-store-1", optionsNamespace⟩ } ∧
      rsi.addExternalConnectionParams = none ∧
      rsi.calledMakeConnParams = false ∧
      ReconcileExternalConnection
        { exRec with specType := .nsfs, nsfsFsBackend := "GPFS", nsfsFsRootPath := "/nsfs" }
        rsi.externalConnectionInfo rsi.addExternalConnectionParams exCreatingEnv = (none, []) :=
  C10_nsfs_skips_connection
    { exRec with specType := .nsfs, nsfsFsBackend := "GPFS", nsfsFsRootPath := "/nsfs" }
    exReadEnv exSystemInfo exCreatingEnv rfl rfl

/-- C5: classification of the connection-check reply in the Creating phase
(with no reused connection and prepared params): invalid-credentials and
invalid-endpoint are transient under five minutes of record age and
persistent afterwards; time-skew and not-supported are always persistent;
timeout and unknown-failure are always transient; and the connection is
registered exactly on a success status. -/
theorem C5_check_connection_classification
    (rec : NamespaceStoreRecord) (p : AddExternalConnectionParams)
    (res : CheckExternalConnectionReply) (aerr cerr : Option GoError) :
    ((res.status = .invalidCredentials ∨ res.status = .invalidEndpoint) →
      (rec.ageSeconds < 300 →
        ∃ e, (ReconcileExternalConnection rec none (some p) ⟨.ok res, aerr, cerr⟩).1 = some e ∧
          IsPersistentError e = false) ∧
      (300 ≤ rec.ageSeconds →
        ∃ e, (ReconcileExternalConnection rec none (some p) ⟨.ok res, aerr, cerr⟩).1 = some e ∧
          IsPersistentError e = true)) ∧
    ((res.status = .timeSkew ∨ res.status = .notSupported) →
      ∃ e, (ReconcileExternalConnection rec none (some p) ⟨.ok res, aerr, cerr⟩).1 = some e ∧
        IsPersistentError e = true) ∧
    ((res.status = .timeout ∨ res.status = .unknownFailure) →
      ∃ e, (ReconcileExternalConnection rec none (some p) ⟨.ok res, aerr, cerr⟩).1 = some e ∧
        IsPersistentError e = false) ∧
    (APICall.addExternalConnection p ∈
        (ReconcileExternalConnection rec none (some p) ⟨.ok res, aerr, cerr⟩).2 ↔
      res.status = .success) := by
  obtain ⟨status, ecode, emsg⟩ := res
  refine ⟨?_, ?_, ?_, ?_⟩
  · rintro (h | h) <;> subst h <;> constructor <;> intro hage
    · exact ⟨.basicE "Got InvalidCredentials. requeue again",
        by simp [ReconcileExternalConnection, hage], rfl⟩
    · have hage2 : ¬ (rec.ageSeconds < 300) := not_lt.mpr hage
      exact ⟨.persistentE ConnStatus.invalidCredentials.str
          ("NamespaceStore " ++ rec.name ++ " invalid external connection " ++
            ConnStatus.invalidCredentials.str),
        by simp [ReconcileExternalConnection, hage2, NewPersistentError], rfl⟩
    · exact ⟨.basicE "got invalid endopint. requeue again",
        by simp [ReconcileExternalConnection, hage], rfl⟩
    · have hage2 : ¬ (rec.ageSeconds < 300) := not_lt.mpr hage
      exact ⟨.persistentE ConnStatus.invalidEndpoint.str
          ("NamespaceStore " ++ rec.name ++ " invalid external connection " ++
            ConnStatus.invalidEndpoint.str),
        by simp [ReconcileExternalConnection, hage2, NewPersistentError], rfl⟩
  · rintro (h | h) <;> subst h
    · exact ⟨.persistentE ConnStatus.timeSkew.str
          ("NamespaceStore " ++ rec.name ++ " invalid external connection " ++
            ConnStatus.timeSkew.str),
        by simp [ReconcileExternalConnection, NewPersistentError], rfl⟩
    · exact ⟨.persistentE ConnStatus.notSupported.str
          ("NamespaceStore " ++ rec.name ++ " invalid external connection " ++
            ConnStatus.notSupported.str),
        by simp [ReconcileExternalConnection, NewPersistentError], rfl⟩
  · rintro (h | h) <;> subst h
    · exact ⟨.basicE ("CheckExternalConnection Status=" ++ ConnStatus.timeout.str ++
          " Error=" ++ ecode ++ " Message=" ++ emsg),
        by simp [ReconcileExternalConnection], rfl⟩
    · exact ⟨.basicE ("CheckExternalConnection Status=" ++ ConnStatus.unknownFailure.str ++
          " Error=" ++ ecode ++ " Message=" ++ emsg),
        by simp [ReconcileExternalConnection], rfl⟩
  · cases status with
    | success =>
      cases aerr <;> simp [ReconcileExternalConnection]
    | invalidCredentials =>
      by_cases hage : rec.ageSeconds < 300 <;> simp [ReconcileExternalConnection, hage]
    | invalidEndpoint =>
      by_cases hage : rec.ageSeconds < 300 <;> simp [ReconcileExternalConnection, hage]
    | timeSkew => simp [ReconcileExternalConnection]
    | notSupported => simp [ReconcileExternalConnection]
    | timeout => simp [ReconcileExternalConnection]
    | unknownFailure => simp [ReconcileExternalConnection]

/-- Closed instance of `C5_check_connection_classification`: an
invalid-credentials reply on the old sample record is persistent, and a
success reply registers the connection. -/
theorem C5_witness :
    (∃ e, (ReconcileExternalConnection exRec none (some exConn0)
        ⟨.ok ⟨.invalidCredentials, "", ""⟩, none, none⟩).1 = some e ∧
      IsPersistentError e = true) ∧
    (APICall.addExternalConnection exConn0 ∈
      (ReconcileExternalConnection exRec none (some exConn0)
        ⟨.ok ⟨.success, "", ""⟩, none, none⟩).2) :=
  ⟨((C5_check_connection_classification exRec exConn0 ⟨.invalidCredentials, "", ""⟩
        none none).1 (Or.inl rfl)).2 (by decide),
   (C5_check_connection_classification exRec exConn0 ⟨.success, "", ""⟩
        none none).2.2.2.mpr rfl⟩

/- ===================== dedup loop characterisation ===================== -/

/-- The match test of the reuse loop ignores the (mutable) descriptor name:
it only reads the triple fields. -/
theorem connMatches_name_irrelevant (conn p : AddExternalConnectionParams)
    (c : ExternalConnectionInfo)
    (h1 : p.endpointType = conn.endpointType) (h2 : p.endpoint = conn.endpoint)
    (h3 : p.identity = conn.identity) :
    connMatches p c = connMatches conn c := by
  unfold connMatches
  rw [h1, h2, h3]

/-- Scan order of the double loop, unfolded one account at a time. -/
theorem allConnections_cons (a : AccountInfo) (accounts : List AccountInfo) :
    allConnections (a :: accounts) = a.connections ++ allConnections accounts := by
  simp [allConnections]

/-- The double loop of `dedupConnection` is the single fold over all
connections in scan order. -/
theorem dedup_foldl_flatten (accounts : List AccountInfo) :
    ∀ acc, accounts.foldl (fun acc account => account.connections.foldl dedupStep acc) acc =
      (allConnections accounts).foldl dedupStep acc := by
  induction accounts with
  | nil => intro acc; rfl
  | cons a rest ih =>
    intro acc
    rw [List.foldl_cons, ih, allConnections_cons, List.foldl_append]

/-- The reuse fold keeps the LAST matching connection of the scan: each match
overwrites the previous one, there is no break. -/
theorem dedupStep_foldl_lastMatch (conn : AddExternalConnectionParams) :
    ∀ (l : List ExternalConnectionInfo) (o : Option ExternalConnectionInfo)
      (p : AddExternalConnectionParams),
      p.endpointType = conn.endpointType → p.endpoint = conn.endpoint →
      p.identity = conn.identity → p.secret = conn.secret → p.authMethod = conn.authMethod →
      l.foldl dedupStep (o, p) =
        match lastMatch conn l with
        | none => (o, p)
        | some c => (some c, { conn with name := c.name }) := by
  intro l
  induction l with
  | nil => intro o p _ _ _ _ _; rfl
  | cons c rest ih =>
    intro o p h1 h2 h3 h4 h5
    rw [List.foldl_cons]
    have hm : connMatches p c = connMatches conn c :=
      connMatches_name_irrelevant conn p c h1 h2 h3
    by_cases hc : connMatches conn c = true
    · have hupdate : ({ p with name := c.name } : AddExternalConnectionParams) =
          { conn with name := c.name } := by
        cases p; cases conn
        simp only at h1 h2 h3 h4 h5
        simp [h1, h2, h3, h4, h5]
      have hstep : dedupStep (o, p) c = (some c, { conn with name := c.name }) := by
        simp [dedupStep, hm, hc, hupdate]
      rw [hstep, ih (some c) { conn with name := c.name } rfl rfl rfl rfl rfl]
      cases hrest : lastMatch conn rest with
      | some m => simp [lastMatch, hrest]
      | none => simp [lastMatch, hrest, hc]
    · have hc2 : connMatches conn c = false := by simpa using hc
      have hstep : dedupStep (o, p) c = (o, p) := by simp [dedupStep, hm, hc2]
      rw [hstep, ih o p h1 h2 h3 h4 h5]
      cases hrest : lastMatch conn rest with
      | some m => simp [lastMatch, hrest]
      | none => simp [lastMatch, hrest, hc2]

/-- `dedupConnection` adopts the last matching connection of the scan. -/
theorem dedupConnection_lastMatch (accounts : List AccountInfo)
    (conn : AddExternalConnectionParams) :
    dedupConnection accounts conn =
      match lastMatch conn (allConnections accounts) with
      | none => (none, conn)
      | some c => (some c, { conn with name := c.name }) := by
  unfold dedupConnection
  rw [dedup_foldl_flatten]
  exact dedupStep_foldl_lastMatch conn (allConnections accounts) none conn rfl rfl rfl rfl rfl

/-- C1 counterexample: with two registered connections matching the desired
triple, `ReadSystemInfo` adopts the name of the LAST match of the scan
(conn-b), not the first (conn-a), refuting the claim as stated. -/
theorem C1_counterexample :
    firstMatch exConn0 (allConnections exSystemInfo.accounts) = some exConnA ∧
    (∃ rsi, ReadSystemInfo exRec exReadEnv = .ok rsi ∧
      rsi.externalConnectionInfo = some exConnB ∧
      rsi.addExternalConnectionParams = some { exConn0 with name := "conn-b" }) ∧
    exConnB.name ≠ exConnA.name := by
  refine ⟨by decide, ?_, by decide⟩
  refine ⟨{ systemInfo := exSystemInfo
            namespaceResourceInfo := none
            externalConnectionInfo := some exConnB
            addExternalConnectionParams := some { exConn0 with name := "conn-b" }
            createNamespaceResourceParams := some
              { name := "ns-store-1", connection := "conn-b", targetBucket := "bucket1"
                nsfsConfig := none, nsStoreInfo := some ⟨"ns-store-1", optionsNamespace⟩ }
            calledMakeConnParams := true }, rfl, rfl, ?_⟩
  simp [exConn0]

/-- C1 amended: for a non-NSFS record whose system read and descriptor
construction succeed, when the scan finds matching registered connections,
`ReadSystemInfo` adopts the name and registration of the LAST match of the
scan order as the reused external connection, and the Creating phase then
performs no connection check and registers nothing. -/
theorem C1_amended_reuse_last_match
    (rec : NamespaceStoreRecord) (env : ReadSystemInfoEnv) (si : SystemInfo)
    (conn0 : AddExternalConnectionParams) (c : ExternalConnectionInfo)
    (htype : rec.specType ≠ .nsfs)
    (hsi : env.sysInfoOutcome = .ok si) (hconn : env.makeConnOutcome = .ok conn0)
    (hlast : lastMatch conn0 (allConnections si.accounts) = some c) :
    ∃ rsi, ReadSystemInfo rec env = .ok rsi ∧
      rsi.externalConnectionInfo = some c ∧
      rsi.addExternalConnectionParams = some { conn0 with name := c.name } ∧
      rsi.createNamespaceResourceParams = some
        { name := rec.name, connection := c.name, targetBucket := rec.targetBucket
          nsfsConfig := none, nsStoreInfo := some ⟨rec.name, optionsNamespace⟩ } ∧
      (∀ cenv, ReconcileExternalConnection rec rsi.externalConnectionInfo
        rsi.addExternalConnectionParams cenv = (none, [])) := by
  have ht : (rec.specType == StoreType.nsfs) = false := by
    cases h : rec.specType == StoreType.nsfs
    · rfl
    · exact absurd (eq_of_beq h) htype
  refine ⟨{ systemInfo := si
            namespaceResourceInfo := si.namespaceResources.find? (fun n => n.name == rec.name)
            externalConnectionInfo := some c
            addExternalConnectionParams := some { conn0 with name := c.name }
            createNamespaceResourceParams := some
              { name := rec.name, connection := c.name, targetBucket := rec.targetBucket
                nsfsConfig := none, nsStoreInfo := some ⟨rec.name, optionsNamespace⟩ }
            calledMakeConnParams := true }, ?_, rfl, rfl, rfl, fun _ => rfl⟩
  unfold ReadSystemInfo
  rw [hsi]
  simp only [ht, Bool.false_eq_true, if_false]
  rw [hconn]
  simp only [dedupConnection_lastMatch, hlast]

/-- Closed instance of `C1_amended_reuse_last_match` on the sample system
info holding two matching connections: conn-b (the last) is adopted. -/
theorem C1_witness :
    ∃ rsi, ReadSystemInfo exRec exReadEnv = .ok rsi ∧
      rsi.externalConnectionInfo = some exConnB ∧
      rsi.addExternalConnectionParams = some { exConn0 with name := exConnB.name } ∧
      rsi.createNamespaceResourceParams = some
        { name := exRec.name, connection := exConnB.name, targetBucket := exRec.targetBucket
          nsfsConfig := none, nsStoreInfo := some ⟨exRec.name, optionsNamespace⟩ } ∧
      (∀ cenv, ReconcileExternalConnection exRec rsi.externalConnectionInfo
        rsi.addExternalConnectionParams cenv = (none, [])) :=
  C1_amended_reuse_last_match exRec exReadEnv exSystemInfo exConn0 exConnB
    (by decide) rfl rfl (by decide)

/- ===================== error classifier (top level) ===================== -/

/-- On the main branch (record found, meta fields fine) `Reconcile` is the
flow step followed by the epilogue; the returned error is nil. -/
theorem reconcile_main_branch (rec : NamespaceStoreRecord) (st0 : NamespaceStoreStatus)
    (env : ReconcileEnv)
    (hns : (env.nsUID == "") = false)
    (hmeta : (env.metaNeedsUpdate && !env.metaKubeUpdateOk) = false) :
    Reconcile rec st0 env =
      { requeueSeconds := (reconcileEpilogue (reconcileFlow rec st0 env).2.1
          (reconcileFlow rec st0 env).1 env.updateStatusErr).1
        err := none
        status := (reconcileEpilogue (reconcileFlow rec st0 env).2.1
          (reconcileFlow rec st0 env).1 env.updateStatusErr).2.1
        events := (reconcileEpilogue (reconcileFlow rec st0 env).2.1
          (reconcileFlow rec st0 env).1 env.updateStatusErr).2.2
        calls := (reconcileFlow rec st0 env).2.2.1
        finalizerRemoved := (reconcileFlow rec st0 env).2.2.2 } := by
  unfold Reconcile
  simp [hns, hmeta]

/-- Collaborator responses that force a persistent flow error (missing
owning system) together with a failing final status update. -/
def exEnvC3 : ReconcileEnv :=
  { exEnv with noobaaUID := "", updateStatusErr := some (.basicE "update failed") }

/-- C3 counterexample: a persistent error surfaced by the phase machine does
NOT always leave the requeue-after unset — when the final status update
fails, `Reconcile` schedules a 3-second retry even for a persistent error. -/
theorem C3_counterexample :
    (reconcileFlow exRec exStatus exEnvC3).1 =
      some (.persistentE "MissingSystem" "NooBaa system noobaa not found or deleted") ∧
    (Reconcile exRec exStatus exEnvC3).requeueSeconds ≠ 0 := by
  exact ⟨rfl, by decide⟩

/-- C3 amended: for every error coming out of the flow step, a persistent
error sets phase Rejected with its reason and message, emits one warning
event, and leaves requeue-after unset provided the final status update
succeeds (a failed status update forces a 3-second requeue regardless);
a non-persistent error leaves the phase set by the flow unchanged, records
a Progressing condition carrying the error text, emits no event, and sets
requeue-after to 3 seconds. -/
theorem C3_amended_error_classifier
    (rec : NamespaceStoreRecord) (st0 : NamespaceStoreStatus) (env : ReconcileEnv)
    (hns : env.nsUID ≠ "")
    (hmeta : (env.metaNeedsUpdate && !env.metaKubeUpdateOk) = false) :
    (∀ reason msg,
      (reconcileFlow rec st0 env).1 = some (.persistentE reason msg) →
      (Reconcile rec st0 env).status =
        SetPhase (reconcileFlow rec st0 env).2.1 (some .rejected) reason msg ∧
      (Reconcile rec st0 env).events = [⟨"Warning", reason, msg⟩] ∧
      (env.updateStatusErr = none → (Reconcile rec st0 env).requeueSeconds = 0) ∧
      (env.updateStatusErr.isSome → (Reconcile rec st0 env).requeueSeconds = 3)) ∧
    (∀ e, (reconcileFlow rec st0 env).1 = some e → IsPersistentError e = false →
      (Reconcile rec st0 env).status =
        SetPhase (reconcileFlow rec st0 env).2.1 none "TemporaryError" e.message ∧
      (Reconcile rec st0 env).status.phase = (reconcileFlow rec st0 env).2.1.phase ∧
      (Reconcile rec st0 env).status.conditions.progressing =
        ⟨.condTrue, "TemporaryError", e.message⟩ ∧
      (Reconcile rec st0 env).events = [] ∧
      (Reconcile rec st0 env).requeueSeconds = 3) := by
  have hns2 : (env.nsUID == "") = false := beq_eq_false_iff_ne.mpr hns
  have hrec := reconcile_main_branch rec st0 env hns2 hmeta
  constructor
  · intro reason msg hflow
    rw [hrec]
    unfold reconcileEpilogue
    rw [hflow]
    refine ⟨rfl, rfl, ?_, ?_⟩
    · intro hup; rw [hup]; rfl
    · intro hup; simp [hup]
  · intro e hflow hper
    rw [hrec]
    unfold reconcileEpilogue
    rw [hflow]
    cases e with
    | persistentE r m => simp [IsPersistentError] at hper
    | rpcE r m =>
      refine ⟨rfl, rfl, rfl, rfl, ?_⟩
      cases h : env.updateStatusErr <;> simp [h]
    | basicE m =>
      refine ⟨rfl, rfl, rfl, rfl, ?_⟩
      cases h : env.updateStatusErr <;> simp [h]

/-- Closed instance of `C3_amended_error_classifier`: the persistent
MissingSystem error with a successful final status update yields phase
Rejected, one warning event and no requeue. -/
theorem C3_witness :
    (Reconcile exRec exStatus { exEnv with noobaaUID := "" }).status =
      SetPhase (reconcileFlow exRec exStatus { exEnv with noobaaUID := "" }).2.1
        (some .rejected) "MissingSystem" "NooBaa system noobaa not found or deleted" ∧
    (Reconcile exRec exStatus { exEnv with noobaaUID := "" }).events =
      [⟨"Warning", "MissingSystem", "NooBaa system noobaa not found or deleted"⟩] ∧
    (Reconcile exRec exStatus { exEnv with noobaaUID := "" }).requeueSeconds = 0 := by
  have h := (C3_amended_error_classifier exRec exStatus { exEnv with noobaaUID := "" }
    (by decide) (by decide)).1 "MissingSystem" "NooBaa system noobaa not found or deleted" rfl
  exact ⟨h.1, h.2.1, h.2.2.1 rfl⟩

/- ===================== mode mapping (top level) ===================== -/

/-- `SetPhase` never touches the mode code of the status. -/
theorem setPhase_modeCode (st : NamespaceStoreStatus) (ph : Option NamespaceStorePhase)
    (r m : String) : (SetPhase st ph r m).modeCode = st.modeCode := by
  cases ph with
  | none => rfl
  | some p => cases p <;> rfl

/-- The Verifying phase publishes the Verifying status whatever its checks
return. -/
theorem verifying_status (rec : NamespaceStoreRecord) (nuid nname suid : String)
    (st : NamespaceStoreStatus) :
    (ReconcilePhaseVerifying rec nuid nname suid st).2 =
      SetPhase st (some .verifying) "NamespaceStorePhaseVerifying"
        "noobaa operator started phase 1/3 - Verifying" := by
  unfold ReconcilePhaseVerifying
  repeat' split
  all_goals rfl

/-- After a successful run of the phase machine the in-memory status sits on
the Creating phase (the last phase published), with the loaded mode code
untouched. -/
theorem phases_success_status (rec : NamespaceStoreRecord) (nuid nname suid : String)
    (env : PhasesEnv) (st : NamespaceStoreStatus)
    (h : (ReconcilePhases rec nuid nname suid env st).1 = none) :
    (ReconcilePhases rec nuid nname suid env st).2.1.phase = .creating ∧
    (ReconcilePhases rec nuid nname suid env st).2.1.modeCode = st.modeCode := by
  have hvmode : (ReconcilePhaseVerifying rec nuid nname suid st).2.modeCode = st.modeCode := by
    rw [verifying_status, setPhase_modeCode]
  cases hv : ReconcilePhaseVerifying rec nuid nname suid st with
  | mk ve vst =>
    rw [hv] at hvmode
    unfold ReconcilePhases at h ⊢
    rw [hv] at h ⊢
    cases ve with
    | some e => simp at h
    | none =>
      dsimp only at h ⊢
      cases hr : ReadSystemInfo rec env.readEnv with
      | error e => rw [hr] at h; simp at h
      | ok rsi =>
        rw [hr] at h
        dsimp only at h ⊢
        cases hc : ReconcileExternalConnection rec rsi.externalConnectionInfo
            rsi.addExternalConnectionParams env.creatingEnv with
        | mk ce calls =>
          rw [hc] at h
          cases ce with
          | some e => simp at h
          | none =>
            dsimp only at h ⊢
            cases hn : ReconcileNamespaceStore rsi.namespaceResourceInfo
                rsi.createNamespaceResourceParams env.creatingEnv.createResourceErr with
            | mk ne calls2 =>
              rw [hn] at h
              cases ne with
              | some e => simp at h
              | none =>
                refine ⟨rfl, ?_⟩
                dsimp only
                rw [setPhase_modeCode, setPhase_modeCode]
                exact hvmode

/-- C7 counterexample: with the mode stuck at AUTH_FAILED and two
consecutive error-free reconciliations, the warning event IS emitted again
on the second run (the phase machine resets the in-memory phase to Creating
before the mode table is consulted, so the transition guard never holds),
refuting the "exactly once per mode transition" claim. -/
theorem C7_counterexample :
    (Reconcile exRec exStatus exEnv).status.phase = .rejected ∧
    (Reconcile exRec exStatus exEnv).status.modeCode = "AUTH_FAILED" ∧
    (Reconcile exRec exStatus exEnv).events =
      [⟨"Warning", "NamespaceStorePhaseRejected", "Namespace store mode: AUTH_FAILED"⟩] ∧
    (Reconcile exRec (Reconcile exRec exStatus exEnv).status exEnv).events =
      [⟨"Warning", "NamespaceStorePhaseRejected", "Namespace store mode: AUTH_FAILED"⟩] :=
  ⟨rfl, rfl, rfl, rfl⟩

/-- C7 amended: on EVERY error-free forward reconciliation whose status mode
maps to Rejected in the mode table, the phase is set to Rejected and one
event of the table's severity is emitted (the phase machine has already set
the in-memory phase to Creating, so the transition guard never suppresses
the event and it repeats each such reconciliation); a mode not present in
the table leaves the phase at Ready with no event. -/
theorem C7_amended_mode_mapping
    (rec : NamespaceStoreRecord) (st0 : NamespaceStoreStatus) (env : ReconcileEnv)
    (sev : String)
    (hns : env.nsUID ≠ "")
    (hmeta : (env.metaNeedsUpdate && !env.metaKubeUpdateOk) = false)
    (hdel : rec.deletionRequested = false)
    (hflow : (ReconcilePhases rec env.noobaaUID env.noobaaName env.secretUID
      env.phasesEnv st0).1 = none) :
    (modeInfoMap st0.modeCode = some ⟨.rejected, sev⟩ →
      (Reconcile rec st0 env).status.phase = .rejected ∧
      (Reconcile rec st0 env).events =
        [⟨sev, "NamespaceStorePhaseRejected", "Namespace store mode: " ++ st0.modeCode⟩]) ∧
    (modeInfoMap st0.modeCode = none →
      (Reconcile rec st0 env).status.phase = .ready ∧
      (Reconcile rec st0 env).events = []) := by
  have hns2 : (env.nsUID == "") = false := beq_eq_false_iff_ne.mpr hns
  have hrec := reconcile_main_branch rec st0 env hns2 hmeta
  have hfl : reconcileFlow rec st0 env =
      ((ReconcilePhases rec env.noobaaUID env.noobaaName env.secretUID env.phasesEnv st0).1,
       (ReconcilePhases rec env.noobaaUID env.noobaaName env.secretUID env.phasesEnv st0).2.1,
       (ReconcilePhases rec env.noobaaUID env.noobaaName env.secretUID env.phasesEnv st0).2.2,
       false) := by
    unfold reconcileFlow
    simp [hdel]
  obtain ⟨hphase, hmode⟩ := phases_success_status rec env.noobaaUID env.noobaaName
    env.secretUID env.phasesEnv st0 hflow
  rw [hrec]
  unfold reconcileEpilogue
  rw [hfl]
  simp only [hflow, hmode]
  constructor
  · intro hmm
    rw [hmm]
    have hguard : (NamespaceStorePhase.rejected !=
        (ReconcilePhases rec env.noobaaUID env.noobaaName env.secretUID
          env.phasesEnv st0).2.1.phase) = true := by
      rw [hphase]; rfl
    simp only [hguard, if_true]
    exact ⟨rfl, rfl⟩
  · intro hmm
    rw [hmm]
    exact ⟨rfl, rfl⟩

/-- Closed instance of `C7_amended_mode_mapping` on the sample error-free
run with mode AUTH_FAILED. -/
theorem C7_witness :
    (Reconcile exRec exStatus exEnv).status.phase = .rejected ∧
    (Reconcile exRec exStatus exEnv).events =
      [⟨"Warning", "NamespaceStorePhaseRejected",
        "Namespace store mode: " ++ exStatus.modeCode⟩] :=
  (C7_amended_mode_mapping exRec exStatus exEnv "Warning"
    (by decide) (by decide) rfl rfl).1 rfl

/- ===================== deletion path lemmas ===================== -/

/-- Every call emitted by the account-detach loop is an account update
carrying the internal pool override. -/
theorem updateDefaultAccounts_calls_shape (accounts : List AccountInfo) (r p : String)
    (errOf : String → Option GoError) :
    ∀ x ∈ (updateDefaultAccounts accounts r p errOf).2,
      ∃ em, x = APICall.updateAccountS3Access em p := by
  induction accounts with
  | nil => intro x hx; simp [updateDefaultAccounts] at hx
  | cons a rest ih =>
    intro x hx
    unfold updateDefaultAccounts at hx
    by_cases hd : (a.defaultResource == r) = true
    · rw [if_pos hd] at hx
      cases he : errOf a.email with
      | some e =>
        rw [he] at hx
        simp at hx
        exact ⟨a.email, hx⟩
      | none =>
        rw [he] at hx
        simp at hx
        rcases hx with h | h
        · exact ⟨a.email, h⟩
        · exact ih x h
    · rw [if_neg hd] at hx
      exact ih x hx

/-- When the detach loop finishes without error it has updated exactly the
accounts whose default resource is the deleted one, in listing order. -/
theorem updateDefaultAccounts_success_calls (accounts : List AccountInfo) (r p : String)
    (errOf : String → Option GoError)
    (h : (updateDefaultAccounts accounts r p errOf).1 = none) :
    (updateDefaultAccounts accounts r p errOf).2 =
      (accounts.filter (fun a => a.defaultResource == r)).map
        (fun a => APICall.updateAccountS3Access a.email p) := by
  induction accounts with
  | nil => rfl
  | cons a rest ih =>
    unfold updateDefaultAccounts at h ⊢
    by_cases hd : (a.defaultResource == r) = true
    · rw [if_pos hd] at h ⊢
      cases he : errOf a.email with
      | some e => rw [he] at h; simp at h
      | none =>
        rw [he] at h
        simp only [List.filter_cons, hd, if_true, List.map_cons]
        dsimp only at h ⊢
        rw [ih h]
    · rw [if_neg hd] at h ⊢
      have hd2 : (a.defaultResource == r) = false := by
        cases hb : a.defaultResource == r
        · rfl
        · exact absurd hb hd
      simp only [List.filter_cons, hd2, Bool.false_eq_true, if_false]
      exact ih h

/-- The calls of the resource-deletion block: with a resource handle and a
clean detach loop they are the account updates followed by the resource
delete (whatever the delete outcome); a failed detach stops at the updates
issued so far. -/
theorem deletionResourceStep_calls (rsi : ReadSystemInfoOk) (env : DeletionEnv)
    (nsr : NamespaceResourceInfo)
    (hnsr : rsi.namespaceResourceInfo = some nsr) :
    ((updateDefaultAccounts rsi.systemInfo.accounts nsr.name
        (internalPoolName rsi.systemInfo.pools) env.updateAccountErrs).1 = none →
      (deletionResourceStep rsi env).2 =
        (updateDefaultAccounts rsi.systemInfo.accounts nsr.name
          (internalPoolName rsi.systemInfo.pools) env.updateAccountErrs).2 ++
          [APICall.deleteNamespaceResource nsr.name]) ∧
    (∀ e, (updateDefaultAccounts rsi.systemInfo.accounts nsr.name
        (internalPoolName rsi.systemInfo.pools) env.updateAccountErrs).1 = some e →
      (deletionResourceStep rsi env).1 = some e ∧
      (deletionResourceStep rsi env).2 =
        (updateDefaultAccounts rsi.systemInfo.accounts nsr.name
          (internalPoolName rsi.systemInfo.pools) env.updateAccountErrs).2) := by
  constructor
  · intro hupd
    unfold deletionResourceStep
    rw [hnsr]
    dsimp only
    rw [hupd]
    cases hdel : env.deleteResourceErr with
    | none => rfl
    | some e =>
      cases e with
      | rpcE code msg =>
        by_cases hcode : (code == "IN_USE") = true
        · simp [hcode]
        · simp [hcode]
      | persistentE r m => rfl
      | basicE m => rfl
  · intro e hupd
    unfold deletionResourceStep
    rw [hnsr]
    dsimp only
    rw [hupd]
    exact ⟨rfl, rfl⟩

/-- An IN_USE rpc failure of the resource delete makes the resource block
fail. -/
theorem deletionResourceStep_inuse (rsi : ReadSystemInfoOk) (env : DeletionEnv)
    (nsr : NamespaceResourceInfo) (msg : String)
    (hnsr : rsi.namespaceResourceInfo = some nsr)
    (hupd : (updateDefaultAccounts rsi.systemInfo.accounts nsr.name
      (internalPoolName rsi.systemInfo.pools) env.updateAccountErrs).1 = none)
    (hdel : env.deleteResourceErr = some (.rpcE "IN_USE" msg)) :
    (deletionResourceStep rsi env).1 =
      some (.basicE ("DeleteNamespaceResourceAPI cannot complete because namespace store "
        ++ nsr.name ++ " has buckets attached")) := by
  unfold deletionResourceStep
  rw [hnsr]
  dsimp only
  rw [hupd, hdel]
  rfl

/-- A clean resource block means the handle was absent or the remote delete
went through. -/
theorem deletionResourceStep_none (rsi : ReadSystemInfoOk) (env : DeletionEnv)
    (h : (deletionResourceStep rsi env).1 = none) :
    rsi.namespaceResourceInfo = none ∨ env.deleteResourceErr = none := by
  unfold deletionResourceStep at h
  cases hnsr : rsi.namespaceResourceInfo with
  | none => exact Or.inl rfl
  | some nsr =>
    rw [hnsr] at h
    dsimp only at h
    cases hupd : (updateDefaultAccounts rsi.systemInfo.accounts nsr.name
        (internalPoolName rsi.systemInfo.pools) env.updateAccountErrs).1 with
    | some e => rw [hupd] at h; simp at h
    | none =>
      rw [hupd] at h
      cases hdel : env.deleteResourceErr with
      | none => exact Or.inr rfl
      | some e =>
        rw [hdel] at h
        cases e with
        | rpcE code msg =>
          by_cases hcode : (code == "IN_USE") = true
          · simp [hcode] at h
          · simp [hcode] at h
        | persistentE r m => simp at h
        | basicE m => simp at h

/-- A clean connection block means no reused connection was recorded, or its
delete went through, or only failed with a tolerated IN_USE. -/
theorem deletionConnStep_none (rsi : ReadSystemInfoOk) (env : DeletionEnv)
    (h : (deletionConnStep rsi env).1 = none) :
    rsi.externalConnectionInfo = none ∨ env.deleteConnectionErr = none ∨
      ∃ m, env.deleteConnectionErr = some (.rpcE "IN_USE" m) := by
  unfold deletionConnStep at h
  cases heci : rsi.externalConnectionInfo with
  | none => exact Or.inl rfl
  | some eci =>
    rw [heci] at h
    cases hdel : env.deleteConnectionErr with
    | none => exact Or.inr (Or.inl rfl)
    | some e =>
      rw [hdel] at h
      cases e with
      | rpcE code msg =>
        by_cases hcode : (code != "IN_USE") = true
        · simp [hcode] at h
        · refine Or.inr (Or.inr ⟨msg, ?_⟩)
          have hq : (code == "IN_USE") = true := by
            cases hb : code == "IN_USE"
            · exact absurd (by simp [bne, hb]) hcode
            · rfl
          rw [eq_of_beq hq]
      | persistentE r m => simp at h
      | basicE m => simp at h

/-- The resource block never emits the finalizer removal. -/
theorem deletionResourceStep_no_finalizer (rsi : ReadSystemInfoOk) (env : DeletionEnv) :
    APICall.removeFinalizer ∉ (deletionResourceStep rsi env).2 := by
  unfold deletionResourceStep
  cases hnsr : rsi.namespaceResourceInfo with
  | none => simp
  | some nsr =>
    dsimp only
    have hshape := updateDefaultAccounts_calls_shape rsi.systemInfo.accounts nsr.name
      (internalPoolName rsi.systemInfo.pools) env.updateAccountErrs
    cases hupd : (updateDefaultAccounts rsi.systemInfo.accounts nsr.name
        (internalPoolName rsi.systemInfo.pools) env.updateAccountErrs).1 with
    | some e =>
      intro hmem
      obtain ⟨em, hx⟩ := hshape _ hmem
      simp at hx
    | none =>
      have hbase : APICall.removeFinalizer ∉
          (updateDefaultAccounts rsi.systemInfo.accounts nsr.name
            (internalPoolName rsi.systemInfo.pools) env.updateAccountErrs).2 ++
          [APICall.deleteNamespaceResource nsr.name] := by
        intro hmem
        rcases List.mem_append.mp hmem with hm | hm
        · obtain ⟨em, hx⟩ := hshape _ hm
          simp at hx
        · simp at hm
      cases hdel : env.deleteResourceErr with
      | none => exact hbase
      | some e =>
        cases e with
        | rpcE code msg =>
          by_cases hcode : (code == "IN_USE") = true
          · simpa [hcode] using hbase
          · simpa [hcode] using hbase
        | persistentE r m => exact hbase
        | basicE m => exact hbase

/-- The connection block never emits the finalizer removal. -/
theorem deletionConnStep_no_finalizer (rsi : ReadSystemInfoOk) (env : DeletionEnv) :
    APICall.removeFinalizer ∉ (deletionConnStep rsi env).2 := by
  unfold deletionConnStep
  cases heci : rsi.externalConnectionInfo with
  | none => simp
  | some eci =>
    cases hdel : env.deleteConnectionErr with
    | none => simp
    | some e =>
      cases e with
      | rpcE code msg =>
        by_cases hcode : (code != "IN_USE") = true
        · simp [hcode]
        · simp [hcode]
      | persistentE r m => simp
      | basicE m => simp

/-- `ReconcileDeletion` on the main branch (Deleting already published or
its status update fine, owning system present, system read ok): the outcome
is the resource block, then the connection block, then the finalizer
removal, stopping at the first error. -/
theorem reconcileDeletion_ok_read (rec : NamespaceStoreRecord) (st : NamespaceStoreStatus)
    (nuid : String) (env : DeletionEnv) (rsi : ReadSystemInfoOk)
    (hphase : st.phase = .deleting ∨ env.updateStatusErr = none)
    (hnuid : nuid ≠ "")
    (hread : ReadSystemInfo rec env.readEnv = .ok rsi) :
    (ReconcileDeletion rec st nuid env).err =
      (match (deletionResourceStep rsi env).1 with
       | some e => some e
       | none =>
         match (deletionConnStep rsi env).1 with
         | some e => some e
         | none => FinalizeDeletion env.kubeUpdateOk rec.name) ∧
    (ReconcileDeletion rec st nuid env).calls =
      (match (deletionResourceStep rsi env).1 with
       | some _ => (deletionResourceStep rsi env).2
       | none =>
         match (deletionConnStep rsi env).1 with
         | some _ => (deletionResourceStep rsi env).2 ++ (deletionConnStep rsi env).2
         | none => (deletionResourceStep rsi env).2 ++ (deletionConnStep rsi env).2 ++
             [APICall.removeFinalizer]) ∧
    (ReconcileDeletion rec st nuid env).finalizerRemoved =
      (match (deletionResourceStep rsi env).1, (deletionConnStep rsi env).1 with
       | none, none => env.kubeUpdateOk
       | _, _ => false) := by
  have hn2 : (nuid == "") = false := beq_eq_false_iff_ne.mpr hnuid
  unfold ReconcileDeletion
  by_cases hbne : (st.phase != NamespaceStorePhase.deleting) = true
  · have hne : st.phase ≠ .deleting := bne_iff_ne.mp hbne
    have hup : env.updateStatusErr = none := hphase.resolve_left hne
    rw [if_pos hbne, hup]
    dsimp only
    rw [hn2]
    simp only [Bool.false_eq_true, if_false]
    rw [hread]
    dsimp only
    cases hres : deletionResourceStep rsi env with
    | mk re rcalls =>
      cases re with
      | some e => exact ⟨rfl, rfl, rfl⟩
      | none =>
        cases hconn : deletionConnStep rsi env with
        | mk ce ccalls =>
          cases ce with
          | some e => exact ⟨rfl, rfl, rfl⟩
          | none => exact ⟨rfl, rfl, rfl⟩
  · rw [if_neg hbne]
    dsimp only
    rw [hn2]
    simp only [Bool.false_eq_true, if_false]
    rw [hread]
    dsimp only
    cases hres : deletionResourceStep rsi env with
    | mk re rcalls =>
      cases re with
      | some e => exact ⟨rfl, rfl, rfl⟩
      | none =>
        cases hconn : deletionConnStep rsi env with
        | mk ce ccalls =>
          cases ce with
          | some e => exact ⟨rfl, rfl, rfl⟩
          | none => exact ⟨rfl, rfl, rfl⟩

/-- C6: during deletion with an existing remote resource handle, an IN_USE
failure of the remote resource delete makes `ReconcileDeletion` return an
error before `FinalizeDeletion`, so the finalizer is not removed on that
attempt; and whenever the finalizer-removing update is issued, either the
owning system was gone or the resource delete and the connection cleanup had
succeeded or been skipped. -/
theorem C6_inuse_blocks_finalizer :
    (∀ (rec : NamespaceStoreRecord) (st : NamespaceStoreStatus) (nuid : String)
       (env : DeletionEnv) (rsi : ReadSystemInfoOk) (nsr : NamespaceResourceInfo)
       (msg : String),
      (st.phase = .deleting ∨ env.updateStatusErr = none) →
      nuid ≠ "" →
      ReadSystemInfo rec env.readEnv = .ok rsi →
      rsi.namespaceResourceInfo = some nsr →
      (updateDefaultAccounts rsi.systemInfo.accounts nsr.name
        (internalPoolName rsi.systemInfo.pools) env.updateAccountErrs).1 = none →
      env.deleteResourceErr = some (.rpcE "IN_USE" msg) →
      (ReconcileDeletion rec st nuid env).err.isSome = true ∧
      (ReconcileDeletion rec st nuid env).finalizerRemoved = false ∧
      APICall.removeFinalizer ∉ (ReconcileDeletion rec st nuid env).calls) ∧
    (∀ (rec : NamespaceStoreRecord) (st : NamespaceStoreStatus) (nuid : String)
       (env : DeletionEnv),
      APICall.removeFinalizer ∈ (ReconcileDeletion rec st nuid env).calls →
      nuid = "" ∨ ∃ rsi, ReadSystemInfo rec env.readEnv = .ok rsi ∧
        (rsi.namespaceResourceInfo = none ∨ env.deleteResourceErr = none) ∧
        (rsi.externalConnectionInfo = none ∨ env.deleteConnectionErr = none ∨
          ∃ m, env.deleteConnectionErr = some (.rpcE "IN_USE" m))) := by
  constructor
  · intro rec st nuid env rsi nsr msg hphase hnuid hread hnsr hupd hdel
    obtain ⟨herr, hcalls, hfin⟩ := reconcileDeletion_ok_read rec st nuid env rsi hphase hnuid hread
    have hres := deletionResourceStep_inuse rsi env nsr msg hnsr hupd hdel
    rw [hres] at herr hcalls hfin
    refine ⟨by rw [herr]; rfl, by rw [hfin], ?_⟩
    rw [hcalls]
    exact deletionResourceStep_no_finalizer rsi env
  · intro rec st nuid env hmem
    unfold ReconcileDeletion at hmem
    by_cases hbne : (st.phase != NamespaceStorePhase.deleting) = true
    · rw [if_pos hbne] at hmem
      cases hup : env.updateStatusErr with
      | some e => rw [hup] at hmem; simp at hmem
      | none =>
        rw [hup] at hmem
        dsimp only at hmem
        by_cases hn : (nuid == "") = true
        · exact Or.inl (eq_of_beq hn)
        · have hn2 : (nuid == "") = false := by
            cases hb : nuid == ""
            · rfl
            · exact absurd hb hn
          rw [hn2] at hmem
          simp only [Bool.false_eq_true, if_false] at hmem
          cases hread : ReadSystemInfo rec env.readEnv with
          | error e => rw [hread] at hmem; simp at hmem
          | ok rsi =>
            rw [hread] at hmem
            dsimp only at hmem
            refine Or.inr ⟨rsi, rfl, ?_⟩
            cases hres : deletionResourceStep rsi env with
            | mk re rcalls =>
              rw [hres] at hmem
              cases re with
              | some e =>
                dsimp only at hmem
                exact absurd hmem (by
                  have := deletionResourceStep_no_finalizer rsi env
                  rw [hres] at this
                  exact this)
              | none =>
                cases hconn : deletionConnStep rsi env with
                | mk ce ccalls =>
                  rw [hconn] at hmem
                  cases ce with
                  | some e =>
                    dsimp only at hmem
                    rcases List.mem_append.mp hmem with hm | hm
                    · exact absurd hm (by
                        have := deletionResourceStep_no_finalizer rsi env
                        rw [hres] at this
                        exact this)
                    · exact absurd hm (by
                        have := deletionConnStep_no_finalizer rsi env
                        rw [hconn] at this
                        exact this)
                  | none =>
                    have h1 : (deletionResourceStep rsi env).1 = none := by rw [hres]
                    have h2 : (deletionConnStep rsi env).1 = none := by rw [hconn]
                    exact ⟨deletionResourceStep_none rsi env h1,
                      deletionConnStep_none rsi env h2⟩
    · rw [if_neg hbne] at hmem
      dsimp only at hmem
      by_cases hn : (nuid == "") = true
      · exact Or.inl (eq_of_beq hn)
      · have hn2 : (nuid == "") = false := by
          cases hb : nuid == ""
          · rfl
          · exact absurd hb hn
        rw [hn2] at hmem
        simp only [Bool.false_eq_true, if_false] at hmem
        cases hread : ReadSystemInfo rec env.readEnv with
        | error e => rw [hread] at hmem; simp at hmem
        | ok rsi =>
          rw [hread] at hmem
          dsimp only at hmem
          refine Or.inr ⟨rsi, rfl, ?_⟩
          cases hres : deletionResourceStep rsi env with
          | mk re rcalls =>
            rw [hres] at hmem
            cases re with
            | some e =>
              dsimp only at hmem
              exact absurd hmem (by
                have := deletionResourceStep_no_finalizer rsi env
                rw [hres] at this
                exact this)
            | none =>
              cases hconn : deletionConnStep rsi env with
              | mk ce ccalls =>
                rw [hconn] at hmem
                cases ce with
                | some e =>
                  dsimp only at hmem
                  rcases List.mem_append.mp hmem with hm | hm
                  · exact absurd hm (by
                      have := deletionResourceStep_no_finalizer rsi env
                      rw [hres] at this
                      exact this)
                  · exact absurd hm (by
                      have := deletionConnStep_no_finalizer rsi env
                      rw [hconn] at this
                      exact this)
                | none =>
                  have h1 : (deletionResourceStep rsi env).1 = none := by rw [hres]
                  have h2 : (deletionConnStep rsi env).1 = none := by rw [hconn]
                  exact ⟨deletionResourceStep_none rsi env h1,
                    deletionConnStep_none rsi env h2⟩

/-- C9: during deletion with a resource handle, the account updates that
reset dangling default resources to the internal pool are issued — one per
matching account, in listing order — before the remote resource delete, and
a failing account update aborts the attempt before the delete is issued. -/
theorem C9_detach_accounts_before_delete
    (rec : NamespaceStoreRecord) (st : NamespaceStoreStatus) (nuid : String)
    (env : DeletionEnv) (rsi : ReadSystemInfoOk) (nsr : NamespaceResourceInfo)
    (hphase : st.phase = .deleting ∨ env.updateStatusErr = none)
    (hnuid : nuid ≠ "")
    (hread : ReadSystemInfo rec env.readEnv = .ok rsi)
    (hnsr : rsi.namespaceResourceInfo = some nsr) :
    ((updateDefaultAccounts rsi.systemInfo.accounts nsr.name
        (internalPoolName rsi.systemInfo.pools) env.updateAccountErrs).1 = none →
      ∃ rest, (ReconcileDeletion rec st nuid env).calls =
        ((rsi.systemInfo.accounts.filter (fun a => a.defaultResource == nsr.name)).map
          (fun a => APICall.updateAccountS3Access a.email
            (internalPoolName rsi.systemInfo.pools))) ++
        APICall.deleteNamespaceResource nsr.name :: rest) ∧
    (∀ e, (updateDefaultAccounts rsi.systemInfo.accounts nsr.name
        (internalPoolName rsi.systemInfo.pools) env.updateAccountErrs).1 = some e →
      (ReconcileDeletion rec st nuid env).err.isSome = true ∧
      APICall.deleteNamespaceResource nsr.name ∉ (ReconcileDeletion rec st nuid env).calls) := by
  obtain ⟨herr, hcalls, hfin⟩ := reconcileDeletion_ok_read rec st nuid env rsi hphase hnuid hread
  constructor
  · intro hupd
    have hsteps := (deletionResourceStep_calls rsi env nsr hnsr).1 hupd
    have hmap := updateDefaultAccounts_success_calls rsi.systemInfo.accounts nsr.name
      (internalPoolName rsi.systemInfo.pools) env.updateAccountErrs hupd
    rw [hcalls]
    cases hres : (deletionResourceStep rsi env).1 with
    | some e =>
      refine ⟨[], ?_⟩
      rw [hsteps, hmap]
    | none =>
      cases hconn : (deletionConnStep rsi env).1 with
      | some e =>
        refine ⟨(deletionConnStep rsi env).2, ?_⟩
        rw [hsteps, hmap]
        simp
      | none =>
        refine ⟨(deletionConnStep rsi env).2 ++ [APICall.removeFinalizer], ?_⟩
        rw [hsteps, hmap]
        simp
  · intro e hupd
    obtain ⟨hse, hsc⟩ := (deletionResourceStep_calls rsi env nsr hnsr).2 e hupd
    rw [hse] at herr hcalls
    refine ⟨by rw [herr]; rfl, ?_⟩
    rw [hcalls, hsc]
    intro hmem
    obtain ⟨em, hx⟩ := updateDefaultAccounts_calls_shape rsi.systemInfo.accounts nsr.name
      (internalPoolName rsi.systemInfo.pools) env.updateAccountErrs _ hmem
    simp at hx

/- ===================== deletion sample inputs ===================== -/

/-- A sample remote resource handle for the record. -/
def exNsrInfo : NamespaceResourceInfo :=
  ⟨"ns-store-1", "AWS", "https://s3.amazonaws.com", "AKIA123"⟩

/-- A sample system info whose resource handle exists (deletion scenario). -/
def exSystemInfoDel : SystemInfo :=
  { accounts := [exAccount]
    pools := [⟨"system-internal-storage-pool", "INTERNAL"⟩]
    namespaceResources := [exNsrInfo] }

/-- `ReadSystemInfo` collaborators for the deletion scenario. -/
def exReadEnvDel : ReadSystemInfoEnv :=
  { sysInfoOutcome := .ok exSystemInfoDel, makeConnOutcome := .ok exConn0 }

/-- Deletion collaborators whose resource delete fails with IN_USE. -/
def exDeletionEnvInUse : DeletionEnv :=
  { updateStatusErr := none, readEnv := exReadEnvDel, updateAccountErrs := fun _ => none
    deleteResourceErr := some (.rpcE "IN_USE" "in use"), deleteConnectionErr := none
    kubeUpdateOk := true }

/-- Deletion collaborators with all calls succeeding. -/
def exDeletionEnvOk : DeletionEnv :=
  { exDeletionEnvInUse with deleteResourceErr := none }

/-- The `ReadSystemInfo` outcome of the deletion scenario. -/
def exRsiDel : ReadSystemInfoOk :=
  { systemInfo := exSystemInfoDel
    namespaceResourceInfo := some exNsrInfo
    externalConnectionInfo := some exConnB
    addExternalConnectionParams := some { exConn0 with name := "conn-b" }
    createNamespaceResourceParams := some
      { name := "ns-store-1", connection := "conn-b", targetBucket := "bucket1"
        nsfsConfig := none, nsStoreInfo := some ⟨"ns-store-1", optionsNamespace⟩ }
    calledMakeConnParams := true }

/-- Closed instance of `C6_inuse_blocks_finalizer` on the IN_USE deletion
scenario. -/
theorem C6_witness :
    (ReconcileDeletion exRec exStatus "uid-nb" exDeletionEnvInUse).err.isSome = true ∧
    (ReconcileDeletion exRec exStatus "uid-nb" exDeletionEnvInUse).finalizerRemoved = false ∧
    APICall.removeFinalizer ∉ (ReconcileDeletion exRec exStatus "uid-nb" exDeletionEnvInUse).calls :=
  C6_inuse_blocks_finalizer.1 exRec exStatus "uid-nb" exDeletionEnvInUse exRsiDel exNsrInfo
    "in use" (Or.inr rfl) (by decide) rfl rfl rfl rfl

/-- Closed instance of `C9_detach_accounts_before_delete` on the clean
deletion scenario. -/
theorem C9_witness :
    ∃ rest, (ReconcileDeletion exRec exStatus "uid-nb" exDeletionEnvOk).calls =
      ((exRsiDel.systemInfo.accounts.filter
          (fun a => a.defaultResource == exNsrInfo.name)).map
        (fun a => APICall.updateAccountS3Access a.email
          (internalPoolName exRsiDel.systemInfo.pools))) ++
      APICall.deleteNamespaceResource exNsrInfo.name :: rest :=
  (C9_detach_accounts_before_delete exRec exStatus "uid-nb" exDeletionEnvOk exRsiDel exNsrInfo
    (Or.inr rfl) (by decide) rfl rfl).1 rfl

end Noobaa
